import Mathlib

/-!
Shallow embedding of the Fyrox-based repository (editor + example scripting
plugin) for specification checking.

Conventions:
* `f32` scalars are modelled as exact rationals (`ℚ`); floating-point rounding
  is idealised away, literals keep their source text value.
* External engine functions with no body in this repository are modelled as
  explicit parameters (`sqrt` for the square root used by nalgebra's
  normalisation) or as opaque recorded effects (calls into the settings
  window, scene-settings panel, …).
* Mutation through `&mut` references becomes explicit state passing: each
  callback returns the updated copies of everything it may mutate.
-/

namespace Scripting

/-- `nalgebra::Vector3<f32>`, components as exact rationals. -/
structure Vector3 where
  x : ℚ
  y : ℚ
  z : ℚ
deriving DecidableEq, Repr

namespace Vector3

def zero : Vector3 := ⟨0, 0, 0⟩

/-- `Vector3::z()`, the unit z axis. -/
def zAxis : Vector3 := ⟨0, 0, 1⟩

/-- `Vector3::x()`, the unit x axis. -/
def xAxis : Vector3 := ⟨1, 0, 0⟩

/-- `Vector3::y_axis()`. -/
def yAxis : Vector3 := ⟨0, 1, 0⟩

def add (a b : Vector3) : Vector3 := ⟨a.x + b.x, a.y + b.y, a.z + b.z⟩

def sub (a b : Vector3) : Vector3 := ⟨a.x - b.x, a.y - b.y, a.z - b.z⟩

/-- `Vector3::scale`. -/
def scale (a : Vector3) (k : ℚ) : Vector3 := ⟨a.x * k, a.y * k, a.z * k⟩

/-- Squared euclidean norm. -/
def normSq (a : Vector3) : ℚ := a.x * a.x + a.y * a.y + a.z * a.z

end Vector3

/-- `f32::EPSILON` = 2⁻²³, exactly. -/
def EPSILON : ℚ := 1 / 8388608

/-- `core::f32::consts::PI`, the exact rational value of the `f32` constant
(bit pattern 0x40490FDB). -/
def f32Pi : ℚ := 13176795 / 4194304

/-- `f32::to_radians`: `self * (PI / 180.0)` (arithmetic idealised as exact). -/
def toRadians (x : ℚ) : ℚ := x * (f32Pi / 180)

/-- `nalgebra`'s `Vector3::try_normalize(min_norm)`: `None` when the norm is
not above `min_norm`, otherwise the vector divided by its norm.  The guard
`norm > min_norm` is expressed squared (equivalent for the non-negative
`min_norm` the code passes); the division by `norm = sqrt (normSq v)` uses the
supplied `sqrt` function, since the exact square root leaves `ℚ`. -/
def tryNormalize (sqrt : ℚ → ℚ) (minNorm : ℚ) (v : Vector3) : Option Vector3 :=
  if v.normSq > minNorm * minNorm then some (v.scale (1 / sqrt v.normSq)) else none

/-- A node rotation.  The code only ever stores
`UnitQuaternion::from_axis_angle(axis, angle)` values, so rotations are kept
symbolically as (axis, angle) pairs. -/
inductive Rotation where
  | ident : Rotation
  | axisAngle (axis : Vector3) (angle : ℚ) : Rotation
deriving DecidableEq, Repr

/-- `UnitQuaternion::from_axis_angle`. -/
def fromAxisAngle (axis : Vector3) (angle : ℚ) : Rotation := .axisAngle axis angle

/-- The part of `fyrox::scene::rigidbody::RigidBody` the scripts touch.
`look_vector`/`side_vector` are engine-derived read-only directions, modelled
as state fields; `apply_force` accumulates into `applied_forces`. -/
structure RigidBodyState where
  lin_vel : Vector3
  ang_vel : Vector3
  look_vector : Vector3
  side_vector : Vector3
  applied_forces : List Vector3
deriving DecidableEq, Repr

namespace RigidBodyState

def apply_force (rb : RigidBodyState) (f : Vector3) : RigidBodyState :=
  { rb with applied_forces := rb.applied_forces ++ [f] }

def set_lin_vel (rb : RigidBodyState) (v : Vector3) : RigidBodyState :=
  { rb with lin_vel := v }

def set_ang_vel (rb : RigidBodyState) (v : Vector3) : RigidBodyState :=
  { rb with ang_vel := v }

end RigidBodyState

/-- What kind of scene node this is; `cast_mut::<RigidBody>()` succeeds
exactly on `rigidBody` nodes. -/
inductive NodeKind where
  | rigidBody (rb : RigidBodyState) : NodeKind
  | plain : NodeKind
deriving DecidableEq, Repr

/-- A scene node: its local-transform rotation plus its kind. -/
structure Node where
  rotation : Rotation
  kind : NodeKind
deriving DecidableEq, Repr

/-- `node.local_transform_mut().set_rotation(r)`. -/
def Node.set_rotation (n : Node) (r : Rotation) : Node := { n with rotation := r }

/-- `node.cast_mut::<RigidBody>()` (read side). -/
def Node.cast_rigid_body (n : Node) : Option RigidBodyState :=
  match n.kind with
  | .rigidBody rb => some rb
  | .plain => none

/-- The scene graph as a pool of nodes indexed by handle (a plain index). -/
structure Graph where
  nodes : List Node
deriving DecidableEq, Repr

/-- `graph.try_get_mut(handle)` (read side). -/
def Graph.try_get (g : Graph) (h : Nat) : Option Node := g.nodes.get? h

def Graph.set_node (g : Graph) (h : Nat) (n : Node) : Graph :=
  { g with nodes := g.nodes.set h n }

structure Scene where
  graph : Graph
deriving DecidableEq, Repr

/-- The pieces of `fyrox::script::ScriptContext` the scripts read:
frame delta time, the node the script is attached to, and the scene. -/
structure ScriptContext where
  dt : ℚ
  node : Node
  scene : Scene
deriving DecidableEq, Repr

/-- `InputController` (src/examples/scripting/src/lib.rs). -/
structure InputController where
  walk_forward : Bool
  walk_backward : Bool
  walk_left : Bool
  walk_right : Bool
  jump : Bool
deriving DecidableEq, Repr

def InputController.default : InputController := ⟨false, false, false, false, false⟩

/-- `Player` script state. -/
structure Player where
  speed : ℚ
  yaw : ℚ
  pitch : ℚ
  camera : Nat
  controller : InputController
deriving DecidableEq, Repr

/-- `impl Default for Player`. -/
def Player.default : Player :=
  { speed := 0.1, yaw := 0, pitch := 0, camera := 0,
    controller := InputController.default }

/-- Result of a script `on_update` run: the (possibly) mutated script state,
node and scene. -/
structure UpdateResult where
  player : Player
  node : Node
  scene : Scene
deriving DecidableEq, Repr

/-- `Player::on_update` (src/examples/scripting/src/lib.rs lines 123-182),
with nalgebra's square root supplied as `sqrt`. -/
def Player.on_update (sqrt : ℚ → ℚ) (p : Player) (context : ScriptContext) :
    UpdateResult :=
  let node := context.node.set_rotation (fromAxisAngle Vector3.yAxis p.yaw)
  let node :=
    match node.kind with
    | .rigidBody body =>
      let look_vector := (tryNormalize sqrt EPSILON body.look_vector).getD Vector3.zAxis
      let side_vector := (tryNormalize sqrt EPSILON body.side_vector).getD Vector3.xAxis
      let velocity := Vector3.zero
      let velocity := if p.controller.walk_right then velocity.sub side_vector else velocity
      let velocity := if p.controller.walk_left then velocity.add side_vector else velocity
      let velocity := if p.controller.walk_forward then velocity.add look_vector else velocity
      let velocity := if p.controller.walk_backward then velocity.sub look_vector else velocity
      let speed := 2 * context.dt
      let velocity := ((tryNormalize sqrt EPSILON velocity).map (·.scale speed)).getD Vector3.zero
      let body := body.set_ang_vel Vector3.zero
      let body := body.set_lin_vel
        ⟨velocity.x / context.dt, body.lin_vel.y, velocity.z / context.dt⟩
      { node with kind := .rigidBody body }
    | .plain => node
  let scene :=
    match context.scene.graph.try_get p.camera with
    | some camera =>
      { graph := context.scene.graph.set_node p.camera
          (camera.set_rotation (fromAxisAngle Vector3.xAxis p.pitch)) }
    | none => context.scene
  ⟨p, node, scene⟩

/-- `winit`-style OS events, restricted to the shapes the script matches on. -/
inductive ElementState where
  | Pressed : ElementState
  | Released : ElementState
deriving DecidableEq, Repr

inductive VirtualKeyCode where
  | W : VirtualKeyCode
  | S : VirtualKeyCode
  | A : VirtualKeyCode
  | D : VirtualKeyCode
  | Space : VirtualKeyCode
  | OtherKey : VirtualKeyCode
deriving DecidableEq, Repr

structure KeyboardInput where
  state : ElementState
  virtual_keycode : Option VirtualKeyCode
deriving DecidableEq, Repr

inductive DeviceEvent where
  | MouseMotion (dx dy : ℚ) : DeviceEvent
  | OtherDevice : DeviceEvent
deriving DecidableEq, Repr

inductive WindowEvent where
  | Keyboard (input : KeyboardInput) : WindowEvent
  | OtherWindow : WindowEvent
deriving DecidableEq, Repr

inductive Event where
  | Device (e : DeviceEvent) : Event
  | Window (e : WindowEvent) : Event
  | OtherEvent : Event
deriving DecidableEq, Repr

/-- `Player::on_os_event` (src/examples/scripting/src/lib.rs lines 184-222).
Only the script state is mutated (`_context` is unused in the source). -/
def Player.on_os_event (p : Player) (event : Event) : Player :=
  match event with
  | .Device e =>
    match e with
    | .MouseMotion dx dy =>
      let mouse_sens : ℚ := 0.025
      { p with
        yaw := p.yaw - mouse_sens * dx,
        pitch := min (max (p.pitch + dy * mouse_sens) (-(toRadians 90))) (toRadians 90) }
    | .OtherDevice => p
  | .Window e =>
    match e with
    | .Keyboard input =>
      match input.virtual_keycode with
      | some key_code =>
        match key_code with
        | .W => { p with controller :=
            { p.controller with walk_forward := input.state = .Pressed } }
        | .S => { p with controller :=
            { p.controller with walk_backward := input.state = .Pressed } }
        | .A => { p with controller :=
            { p.controller with walk_left := input.state = .Pressed } }
        | .D => { p with controller :=
            { p.controller with walk_right := input.state = .Pressed } }
        | .Space => { p with controller :=
            { p.controller with jump := input.state = .Pressed } }
        | .OtherKey => p
      | none => p
    | .OtherWindow => p
  | .OtherEvent => p

/-- `Jumper` script state. -/
structure Jumper where
  timer : ℚ
  period : ℚ
deriving DecidableEq, Repr

/-- `Jumper::on_update` (src/examples/scripting/src/lib.rs lines 260-269):
returns the updated script state and node. -/
def Jumper.on_update (j : Jumper) (context : ScriptContext) : Jumper × Node :=
  match context.node.kind with
  | .rigidBody rigid_body =>
    let (j, rigid_body) :=
      if j.timer > 0.6 then
        ({ j with timer := 0 }, rigid_body.apply_force ⟨0, 200, 0⟩)
      else (j, rigid_body)
    ({ j with timer := j.timer + context.dt },
     { context.node with kind := .rigidBody rigid_body })
  | .plain => (j, context.node)

/-- UUIDs, kept as their canonical strings.  `Uuid::from_str` validates the
8-4-4-4-12 hyphenated hex format. -/
def Uuid := String
deriving DecidableEq, Repr

def isHexDigitChar (c : Char) : Bool :=
  (('0' ≤ c && c ≤ '9') || ('a' ≤ c && c ≤ 'f') || ('A' ≤ c && c ≤ 'F'))

/-- `Uuid::from_str` (success modelled as format validation). -/
def Uuid.from_str (s : String) : Option Uuid :=
  if s.length = 36 &&
      (List.range 36).all (fun i =>
        match s.data.get? i with
        | some c =>
          if i = 8 || i = 13 || i = 18 || i = 23 then c = '-' else isHexDigitChar c
        | none => false) then
    some s
  else none

/-- `.unwrap()` on an `Option` whose success is proven separately; the
default is never reached for the literals used below. -/
def Uuid.unwrap (u : Option Uuid) : Uuid := u.getD ""

/-- `GamePlugin` has no fields. -/
structure GamePlugin where
deriving DecidableEq, Repr

/-- `GamePlugin::new()`. -/
def GamePlugin.new : GamePlugin := {}

/-- `<GamePlugin as TypeUuidProvider>::type_uuid()`. -/
def GamePlugin.type_uuid : Uuid :=
  Uuid.unwrap (Uuid.from_str "a9507fb2-0945-4fc1-91ce-115ae7c8a615")

/-- `<Player as TypeUuidProvider>::type_uuid()`. -/
def Player.type_uuid : Uuid :=
  Uuid.unwrap (Uuid.from_str "4aa165aa-011b-479f-bc10-b90b2c4b5060")

/-- `<Jumper as TypeUuidProvider>::type_uuid()`. -/
def Jumper.type_uuid : Uuid :=
  Uuid.unwrap (Uuid.from_str "942e9f5b-e036-4357-b514-91060d4059f5")

/-- `<GamePlugin as Plugin>::id()`. -/
def GamePlugin.id (_self : GamePlugin) : Uuid := GamePlugin.type_uuid

/-- The engine's script-constructor registry: `add::<P, S, N>(name)` appends a
constructor entry keyed by the script name and the script's type UUID. -/
structure ScriptConstructorContainer where
  entries : List (String × Uuid)
deriving DecidableEq, Repr

def ScriptConstructorContainer.add (c : ScriptConstructorContainer)
    (name : String) (script_uuid : Uuid) : ScriptConstructorContainer :=
  { c with entries := c.entries ++ [(name, script_uuid)] }

structure SerializationContext where
  script_constructors : ScriptConstructorContainer
deriving DecidableEq, Repr

/-- `fyrox::plugin::PluginContext`, parameterised by the rest of the engine
state (`Ω`), which `GamePlugin` never touches. -/
structure PluginContext (Ω : Type) where
  serialization_context : SerializationContext
  engine_rest : Ω

/-- `GamePlugin::on_init` (src/examples/scripting/src/lib.rs lines 36-46). -/
def GamePlugin.on_init (self : GamePlugin) (engine : PluginContext Ω) :
    GamePlugin × PluginContext Ω :=
  let engine := { engine with serialization_context :=
    { engine.serialization_context with script_constructors :=
      engine.serialization_context.script_constructors.add "Player" Player.type_uuid } }
  let engine := { engine with serialization_context :=
    { engine.serialization_context with script_constructors :=
      engine.serialization_context.script_constructors.add "Jumper" Jumper.type_uuid } }
  (self, engine)

/-- `GamePlugin::on_unload` (empty body). -/
def GamePlugin.on_unload (self : GamePlugin) (context : PluginContext Ω) :
    GamePlugin × PluginContext Ω := (self, context)

/-- `GamePlugin::update` (empty body). -/
def GamePlugin.update (self : GamePlugin) (context : PluginContext Ω) :
    GamePlugin × PluginContext Ω := (self, context)

/-- `fyrox_main` entry point: `Box::new(Box::new(GamePlugin::new()))`, with
the boxing erased. -/
def fyrox_main : GamePlugin := GamePlugin.new

end Scripting

namespace Editor

/-! ### src/editor/src/scene/commands/sound_context.rs

`DistanceModel` and `Renderer` are engine-owned types; the commands are
generic in them, so the embedding is polymorphic in `DM` and `R`. -/

structure SoundContext (DM R : Type) where
  distance_model : DM
  renderer : R

structure Graph (DM R : Type) where
  sound_context : SoundContext DM R

structure Scene (DM R : Type) where
  graph : Graph DM R

structure SceneContext (DM R : Type) where
  scene : Scene DM R

structure SetDistanceModelCommand (DM : Type) where
  value : DM

structure SetRendererCommand (R : Type) where
  value : R

/-- `SetDistanceModelCommand::swap`: exchange the stored value with the sound
context's current distance model. -/
def SetDistanceModelCommand.swap (self : SetDistanceModelCommand DM)
    (sound_context : SoundContext DM R) :
    SetDistanceModelCommand DM × SoundContext DM R :=
  let old := sound_context.distance_model
  let sound_context := { sound_context with distance_model := self.value }
  (⟨old⟩, sound_context)

def SetDistanceModelCommand.execute (self : SetDistanceModelCommand DM)
    (context : SceneContext DM R) :
    SetDistanceModelCommand DM × SceneContext DM R :=
  let (self, sc) := self.swap context.scene.graph.sound_context
  (self, { context with scene := { context.scene with graph :=
    { context.scene.graph with sound_context := sc } } })

def SetDistanceModelCommand.revert (self : SetDistanceModelCommand DM)
    (context : SceneContext DM R) :
    SetDistanceModelCommand DM × SceneContext DM R :=
  let (self, sc) := self.swap context.scene.graph.sound_context
  (self, { context with scene := { context.scene with graph :=
    { context.scene.graph with sound_context := sc } } })

/-- `SetRendererCommand::swap`: exchange the stored value with the sound
context's current renderer. -/
def SetRendererCommand.swap (self : SetRendererCommand R)
    (sound_context : SoundContext DM R) :
    SetRendererCommand R × SoundContext DM R :=
  let old := sound_context.renderer
  let sound_context := { sound_context with renderer := self.value }
  (⟨old⟩, sound_context)

def SetRendererCommand.execute (self : SetRendererCommand R)
    (context : SceneContext DM R) :
    SetRendererCommand R × SceneContext DM R :=
  let (self, sc) := self.swap context.scene.graph.sound_context
  (self, { context with scene := { context.scene with graph :=
    { context.scene.graph with sound_context := sc } } })

def SetRendererCommand.revert (self : SetRendererCommand R)
    (context : SceneContext DM R) :
    SetRendererCommand R × SceneContext DM R :=
  let (self, sc) := self.swap context.scene.graph.sound_context
  (self, { context with scene := { context.scene with graph :=
    { context.scene.graph with sound_context := sc } } })

/-! ### src/editor/src/menu/file.rs

Widget handles are plain indices handed out by a build context that counts
allocations and records what was built at each handle.  Calls into modules of
the editor that are external to this file (the settings window, the
scene-settings panel) are recorded as opaque effects. -/

/-- What a widget-builder call built, as far as this file cares. -/
inductive WidgetDesc where
  | messageBox (title text : String) : WidgetDesc
  | menuItem (title : String) (shortcut : Option String) (items : List Nat) : WidgetDesc
  | rootMenuItem (title : String) (items : List Nat) : WidgetDesc
  | fileSelector (title : String) : WidgetDesc
  | settingsWindow : WidgetDesc
deriving DecidableEq, Repr

/-- The build context: a fresh-handle counter plus the record of built
widgets. -/
structure BuildContext where
  next : Nat
  widgets : List (Nat × WidgetDesc)
deriving DecidableEq, Repr

/-- Allocate a widget, returning its fresh handle. -/
def BuildContext.alloc (ctx : BuildContext) (d : WidgetDesc) : Nat × BuildContext :=
  (ctx.next, ⟨ctx.next + 1, ctx.widgets ++ [(ctx.next, d)]⟩)

/-- The widget built at a handle. -/
def BuildContext.builtAt (ctx : BuildContext) (h : Nat) : Option WidgetDesc :=
  (ctx.widgets.find? (fun p => p.1 = h)).map (·.2)

/-- A build context is well formed when every recorded handle is below the
fresh-handle counter (true of every context the engine ever hands out). -/
def BuildContext.wf (ctx : BuildContext) : Prop :=
  ∀ p ∈ ctx.widgets, p.1 < ctx.next

/-- `create_menu_item` (menu/mod.rs, external to src): builds a menu item
widget and returns its handle. -/
def create_menu_item (title : String) (items : List Nat) (ctx : BuildContext) :
    Nat × BuildContext :=
  ctx.alloc (.menuItem title none items)

/-- `create_menu_item_shortcut` (menu/mod.rs, external to src). -/
def create_menu_item_shortcut (title shortcut : String) (items : List Nat)
    (ctx : BuildContext) : Nat × BuildContext :=
  ctx.alloc (.menuItem title (some shortcut) items)

/-- `create_root_menu_item` (menu/mod.rs, external to src). -/
def create_root_menu_item (title : String) (items : List Nat)
    (ctx : BuildContext) : Nat × BuildContext :=
  ctx.alloc (.rootMenuItem title items)

/-- `make_save_file_selector` (lib.rs of the editor, external to src): builds
the "Save Scene As" file-selector window. -/
def make_save_file_selector (ctx : BuildContext) : Nat × BuildContext :=
  ctx.alloc (.fileSelector "Save Scene As")

/-- Per-scene editor state: the only field this file reads is the optional
path the scene was loaded from / saved to. -/
structure EditorScene where
  path : Option String
deriving DecidableEq, Repr

/-- `Settings`, restricted to what `FileMenu` reads: the recent-files list. -/
structure RecentFiles where
  scenes : List String
deriving DecidableEq, Repr

structure Settings where
  recent : RecentFiles
deriving DecidableEq, Repr

/-- The `Panels` handles used by this file. -/
structure Panels where
  configurator_window : Nat
deriving DecidableEq, Repr

structure FileMenu where
  menu : Nat
  new_scene : Nat
  save : Nat
  save_as : Nat
  load : Nat
  close_scene : Nat
  exit : Nat
  open_settings : Nat
  configure : Nat
  save_file_selector : Nat
  load_file_selector : Nat
  configure_message : Nat
  settings : Nat
  recent_files_container : Nat
  recent_files : List Nat
  open_scene_settings : Nat
deriving DecidableEq, Repr

/-- The stateful map underlying `make_recent_files_items`: build one menu
item per recent file, threading the build context. -/
def allocRecentItems : List String → BuildContext → List Nat × BuildContext
  | [], ctx => ([], ctx)
  | f :: rest, ctx =>
    let (h, ctx) := create_menu_item f [] ctx
    let (hs, ctx) := allocRecentItems rest ctx
    (h :: hs, ctx)

/-- `make_recent_files_items`. -/
def make_recent_files_items (ctx : BuildContext) (recent_files : RecentFiles) :
    List Nat × BuildContext :=
  allocRecentItems recent_files.scenes ctx

/-- `FileMenu::new` (file.rs lines 52-155), following the source's build
order.  `SettingsWindow::new` is external and modelled as one allocation. -/
def FileMenu.new (settings : Settings) (ctx : BuildContext) :
    FileMenu × BuildContext :=
  let (configure_message, ctx) := ctx.alloc
    (.messageBox "Warning"
      "Cannot reconfigure editor while scene is open! Close scene first and retry.")
  let (recent_files, ctx) := make_recent_files_items ctx settings.recent
  let (new_scene, ctx) := create_menu_item_shortcut "New Scene" "Ctrl+N" [] ctx
  let (save, ctx) := create_menu_item_shortcut "Save Scene" "Ctrl+S" [] ctx
  let (save_as, ctx) := create_menu_item_shortcut "Save Scene As..." "Ctrl+Shift+S" [] ctx
  let (load, ctx) := create_menu_item_shortcut "Load Scene..." "Ctrl+L" [] ctx
  let (close_scene, ctx) := create_menu_item_shortcut "Close Scene" "Ctrl+Q" [] ctx
  let (open_settings, ctx) := create_menu_item "Editor Settings..." [] ctx
  let (open_scene_settings, ctx) := create_menu_item "Scene Settings..." [] ctx
  let (configure, ctx) := create_menu_item "Configure..." [] ctx
  let (recent_files_container, ctx) := create_menu_item "Recent Files" recent_files ctx
  let (exit, ctx) := create_menu_item_shortcut "Exit" "Alt+F4" [] ctx
  let (menu, ctx) := create_root_menu_item "File"
    [new_scene, save, save_as, load, close_scene, open_settings,
     open_scene_settings, configure, recent_files_container, exit] ctx
  let (save_file_selector, ctx) := make_save_file_selector ctx
  let (load_file_selector, ctx) := ctx.alloc (.fileSelector "Select a Scene To Load")
  let (settings_window, ctx) := ctx.alloc .settingsWindow
  (⟨menu, new_scene, save, save_as, load, close_scene, exit, open_settings,
    configure, save_file_selector, load_file_selector, configure_message,
    settings_window, recent_files_container, recent_files,
    open_scene_settings⟩, ctx)

/-- `SaveSceneConfirmationDialogAction`. -/
inductive SaveSceneConfirmationDialogAction where
  | OpenLoadSceneDialog : SaveSceneConfirmationDialogAction
  | CloseScene : SaveSceneConfirmationDialogAction
  | MakeNewScene : SaveSceneConfirmationDialogAction
  | LoadScene (path : String) : SaveSceneConfirmationDialogAction
deriving DecidableEq, Repr

/-- The editor `Message` variants this file sends. -/
inductive Message where
  | SaveScene (path : String) : Message
  | LoadScene (path : String) : Message
  | OpenSaveSceneConfirmationDialog (a : SaveSceneConfirmationDialogAction) : Message
  | CloseScene : Message
  | Exit (force : Bool) : Message
  | NewScene : Message
deriving DecidableEq, Repr

/-- UI messages the user interface is asked to send (`ToWidget`). -/
inductive UiOut where
  | windowOpenModal (dest : Nat) (center : Bool) : UiOut
  | fileSelectorRoot (dest : Nat) (root : Option String) : UiOut
  | fileSelectorPath (dest : Nat) (path : String) : UiOut
  | messageBoxOpen (dest : Nat) : UiOut
deriving DecidableEq, Repr

/-- Everything `handle_ui_message` does, in order.  Calls into editor modules
outside this file are opaque `call…` effects. -/
inductive Effect where
  | send (m : Message) : Effect
  | uiSend (m : UiOut) : Effect
  | callSettingsHandleMessage : Effect
  | callSettingsWindowOpen : Effect
  | callSceneSettingsOpen : Effect
deriving DecidableEq, Repr

/-- The payload of an incoming `UiMessage`, restricted to the downcasts this
file attempts (`FileSelectorMessage::Commit` and `MenuItemMessage::Click`). -/
inductive UiData where
  | fsCommit (path : String) : UiData
  | fsOther : UiData
  | miClick : UiData
  | miOther : UiData
  | otherData : UiData
deriving DecidableEq, Repr

structure UiMessage where
  destination : Nat
  data : UiData
deriving DecidableEq, Repr

/-- `FileMenu::open_load_file_selector` (file.rs lines 166-177);
`current_dir` stands for `std::env::current_dir().unwrap()`. -/
def FileMenu.open_load_file_selector (self : FileMenu) (current_dir : String) :
    List Effect :=
  [.uiSend (.windowOpenModal self.load_file_selector true),
   .uiSend (.fileSelectorRoot self.load_file_selector (some current_dir))]

/-- `FileMenu::open_save_file_selector` (file.rs lines 179-190). -/
def FileMenu.open_save_file_selector (self : FileMenu) (current_dir : String) :
    List Effect :=
  [.uiSend (.windowOpenModal self.save_file_selector true),
   .uiSend (.fileSelectorRoot self.save_file_selector (some current_dir))]

/-- `FileMenu::handle_ui_message` (file.rs lines 192-310) as the list of
effects it performs.  `is_scene_needs_to_be_saved` lives outside this file
and is passed in as `needs_save`; `std::env::current_dir()` as `current_dir`.
The handler never mutates `FileMenu`'s own fields, so only effects are
returned. -/
def FileMenu.handle_ui_message (self : FileMenu) (message : UiMessage)
    (editor_scene : Option EditorScene) (settings : Settings) (panels : Panels)
    (needs_save : Option EditorScene → Bool) (current_dir : String) :
    List Effect :=
  Effect.callSettingsHandleMessage ::
  (match message.data with
   | .fsCommit path =>
     if message.destination = self.save_file_selector then
       [.send (.SaveScene path)]
     else if message.destination = self.load_file_selector then
       [.send (.LoadScene path)]
     else []
   | .miClick =>
     if message.destination = self.save then
       match (editor_scene.bind EditorScene.path) with
       | some scene_path => [.send (.SaveScene scene_path)]
       | none =>
         [.uiSend (.windowOpenModal self.save_file_selector true),
          .uiSend (.fileSelectorPath self.save_file_selector current_dir)]
     else if message.destination = self.save_as then
       [.uiSend (.windowOpenModal self.save_file_selector true),
        .uiSend (.fileSelectorPath self.save_file_selector current_dir)]
     else if message.destination = self.load then
       if needs_save editor_scene then
         [.send (.OpenSaveSceneConfirmationDialog .OpenLoadSceneDialog)]
       else
         self.open_load_file_selector current_dir
     else if message.destination = self.close_scene then
       if needs_save editor_scene then
         [.send (.OpenSaveSceneConfirmationDialog .CloseScene)]
       else
         [.send .CloseScene]
     else if message.destination = self.exit then
       [.send (.Exit false)]
     else if message.destination = self.new_scene then
       if needs_save editor_scene then
         [.send (.OpenSaveSceneConfirmationDialog .MakeNewScene)]
       else
         [.send .NewScene]
     else if message.destination = self.configure then
       if editor_scene.isNone then
         [.uiSend (.windowOpenModal panels.configurator_window true)]
       else
         [.uiSend (.messageBoxOpen self.configure_message)]
     else if message.destination = self.open_settings then
       [.callSettingsWindowOpen]
     else if message.destination = self.open_scene_settings then
       [.callSceneSettingsOpen]
     else
       match self.recent_files.findIdx? (fun i => i = message.destination) with
       | some recent_file =>
         match settings.recent.scenes.get? recent_file with
         | some recent_file_path =>
           if needs_save editor_scene then
             [.send (.OpenSaveSceneConfirmationDialog (.LoadScene recent_file_path))]
           else
             [.send (.LoadScene recent_file_path)]
         | none => []
       | none => []
   | _ => [])

/-- The editor messages a list of effects sends on the message sender. -/
def sentMessages (effects : List Effect) : List Message :=
  effects.filterMap (fun e =>
    match e with
    | .send m => some m
    | _ => none)

end Editor

/-- Two `Player` states agree on every field except possibly `speed`. -/
def Scripting.differOnlyInSpeed (a b : Scripting.Player) : Prop :=
  a.yaw = b.yaw ∧ a.pitch = b.pitch ∧ a.camera = b.camera ∧ a.controller = b.controller

/-- `Player::on_update` returns the script state unchanged. -/
theorem Scripting.Player.on_update_player (sqrt : ℚ → ℚ) (p : Scripting.Player)
    (context : Scripting.ScriptContext) :
    (Scripting.Player.on_update sqrt p context).player = p := rfl

/-! ## Claims -/

/-- Claim C10: `fyrox_main` always returns (the box around) `GamePlugin::new()`,
the default field-less `GamePlugin`, and that plugin's `id()` is the
`GamePlugin` type UUID `a9507fb2-0945-4fc1-91ce-115ae7c8a615` (whose
`Uuid::from_str` parse succeeds). -/
theorem C10_fyrox_main_returns_default_plugin_with_type_uuid :
    Scripting.fyrox_main = Scripting.GamePlugin.new ∧
    Scripting.GamePlugin.new = {} ∧
    Scripting.GamePlugin.id Scripting.fyrox_main =
      "a9507fb2-0945-4fc1-91ce-115ae7c8a615" ∧
    Scripting.Uuid.from_str "a9507fb2-0945-4fc1-91ce-115ae7c8a615" =
      some "a9507fb2-0945-4fc1-91ce-115ae7c8a615" :=
  ⟨rfl, rfl, by decide, by decide⟩

/-- Claim C8: `GamePlugin::on_init` appends exactly the two script
constructors "Player" (for the `Player` script type) and "Jumper" (for the
`Jumper` script type) to the serialization context and changes nothing else
(the plugin state and the rest of the engine are untouched); `on_unload` and
`update` are identities. -/
theorem C8_on_init_registers_two_script_constructors {Ω : Type}
    (g : Scripting.GamePlugin) (engine : Scripting.PluginContext Ω) :
    Scripting.GamePlugin.on_init g engine =
      (g, { engine with serialization_context :=
        ⟨⟨engine.serialization_context.script_constructors.entries ++
          [("Player", Scripting.Player.type_uuid),
           ("Jumper", Scripting.Jumper.type_uuid)]⟩⟩ }) ∧
    Scripting.GamePlugin.on_unload g engine = (g, engine) ∧
    Scripting.GamePlugin.update g engine = (g, engine) := by
  obtain ⟨⟨⟨entries⟩⟩, rest⟩ := engine
  refine ⟨?_, rfl, rfl⟩
  simp [Scripting.GamePlugin.on_init, Scripting.ScriptConstructorContainer.add]

/-- Claim C5: for both sound-context commands, `execute` followed by `revert`
restores the sound context's field (distance model resp. renderer) and the
command's stored value, and each of `execute`/`revert` swaps the stored value
with the context's current value. -/
theorem C5_sound_context_commands_swap_roundtrip {DM R : Type} (v : DM) (w : R)
    (context : Editor.SceneContext DM R) :
    (Prod.snd ((Editor.SetDistanceModelCommand.execute ⟨v⟩ context).1.revert
          (Editor.SetDistanceModelCommand.execute ⟨v⟩ context).2)
            |>.scene.graph.sound_context.distance_model) =
        context.scene.graph.sound_context.distance_model ∧
      (Prod.fst ((Editor.SetDistanceModelCommand.execute ⟨v⟩ context).1.revert
          (Editor.SetDistanceModelCommand.execute ⟨v⟩ context).2) |>.value) = v ∧
      (Editor.SetDistanceModelCommand.execute ⟨v⟩ context).1.value =
        context.scene.graph.sound_context.distance_model ∧
      (Prod.snd (Editor.SetDistanceModelCommand.execute ⟨v⟩ context)
          |>.scene.graph.sound_context.distance_model) = v ∧
    (Prod.snd ((Editor.SetRendererCommand.execute ⟨w⟩ context).1.revert
          (Editor.SetRendererCommand.execute ⟨w⟩ context).2)
            |>.scene.graph.sound_context.renderer) =
        context.scene.graph.sound_context.renderer ∧
      (Prod.fst ((Editor.SetRendererCommand.execute ⟨w⟩ context).1.revert
          (Editor.SetRendererCommand.execute ⟨w⟩ context).2) |>.value) = w ∧
      (Editor.SetRendererCommand.execute ⟨w⟩ context).1.value =
        context.scene.graph.sound_context.renderer ∧
      (Prod.snd (Editor.SetRendererCommand.execute ⟨w⟩ context)
          |>.scene.graph.sound_context.renderer) = w :=
  ⟨rfl, rfl, rfl, rfl, rfl, rfl, rfl, rfl⟩

/-- Claim C3: `Jumper::on_update` on a rigid-body node applies the upward
force (0, 200, 0) and leaves the timer at `dt` when the timer was strictly
above 0.6 at entry; otherwise it applies no force and adds `dt` to the timer;
on a non-rigid-body node nothing changes. -/
theorem C3_jumper_periodic_jump (j : Scripting.Jumper)
    (context : Scripting.ScriptContext) (rb : Scripting.RigidBodyState) :
    (context.node.kind = .rigidBody rb →
      (0.6 < j.timer →
        Scripting.Jumper.on_update j context =
          ({ j with timer := context.dt },
           { context.node with
              kind := .rigidBody (rb.apply_force ⟨0, 200, 0⟩) })) ∧
      (j.timer ≤ 0.6 →
        Scripting.Jumper.on_update j context =
          ({ j with timer := j.timer + context.dt }, context.node))) ∧
    (context.node.kind = .plain →
      Scripting.Jumper.on_update j context = (j, context.node)) := by
  obtain ⟨dt, ⟨rot, k⟩, scene⟩ := context
  constructor
  · intro hk
    subst hk
    constructor
    · intro ht
      simp [Scripting.Jumper.on_update, ht]
    · intro ht
      simp [Scripting.Jumper.on_update, not_lt.mpr ht]
  · intro hk
    subst hk
    simp [Scripting.Jumper.on_update]

/-- Witness for C3: a concrete jump frame (timer 1 > 0.6, dt = 1/50), a
concrete non-jump frame (timer 1/2 ≤ 0.6) and a non-rigid-body frame. -/
theorem C3_jumper_periodic_jump_witness :
    ((⟨1 / 50, ⟨.ident, .rigidBody ⟨⟨0, 0, 0⟩, ⟨0, 0, 0⟩, ⟨0, 0, 1⟩, ⟨1, 0, 0⟩, []⟩⟩,
        ⟨⟨[]⟩⟩⟩ : Scripting.ScriptContext).node.kind =
        .rigidBody ⟨⟨0, 0, 0⟩, ⟨0, 0, 0⟩, ⟨0, 0, 1⟩, ⟨1, 0, 0⟩, []⟩ ∧
      (0.6 : ℚ) < (⟨1, 0⟩ : Scripting.Jumper).timer ∧
      Scripting.Jumper.on_update ⟨1, 0⟩
          ⟨1 / 50, ⟨.ident, .rigidBody ⟨⟨0, 0, 0⟩, ⟨0, 0, 0⟩, ⟨0, 0, 1⟩, ⟨1, 0, 0⟩, []⟩⟩,
            ⟨⟨[]⟩⟩⟩ =
        (⟨1 / 50, 0⟩,
          ⟨.ident, .rigidBody ⟨⟨0, 0, 0⟩, ⟨0, 0, 0⟩, ⟨0, 0, 1⟩, ⟨1, 0, 0⟩,
            [⟨0, 200, 0⟩]⟩⟩)) ∧
    ((⟨1 / 2, 0⟩ : Scripting.Jumper).timer ≤ 0.6 ∧
      Scripting.Jumper.on_update ⟨1 / 2, 0⟩
          ⟨1 / 50, ⟨.ident, .rigidBody ⟨⟨0, 0, 0⟩, ⟨0, 0, 0⟩, ⟨0, 0, 1⟩, ⟨1, 0, 0⟩, []⟩⟩,
            ⟨⟨[]⟩⟩⟩ =
        (⟨1 / 2 + 1 / 50, 0⟩,
          ⟨.ident, .rigidBody ⟨⟨0, 0, 0⟩, ⟨0, 0, 0⟩, ⟨0, 0, 1⟩, ⟨1, 0, 0⟩, []⟩⟩)) ∧
    ((⟨.ident, .plain⟩ : Scripting.Node).kind = .plain ∧
      Scripting.Jumper.on_update ⟨1, 0⟩ ⟨1 / 50, ⟨.ident, .plain⟩, ⟨⟨[]⟩⟩⟩ =
        (⟨1, 0⟩, ⟨.ident, .plain⟩)) := by
  have h1 := (C3_jumper_periodic_jump ⟨1, 0⟩
    ⟨1 / 50, ⟨.ident, .rigidBody ⟨⟨0, 0, 0⟩, ⟨0, 0, 0⟩, ⟨0, 0, 1⟩, ⟨1, 0, 0⟩, []⟩⟩,
      ⟨⟨[]⟩⟩⟩ ⟨⟨0, 0, 0⟩, ⟨0, 0, 0⟩, ⟨0, 0, 1⟩, ⟨1, 0, 0⟩, []⟩).1 rfl
  have h2 := (C3_jumper_periodic_jump ⟨1 / 2, 0⟩
    ⟨1 / 50, ⟨.ident, .rigidBody ⟨⟨0, 0, 0⟩, ⟨0, 0, 0⟩, ⟨0, 0, 1⟩, ⟨1, 0, 0⟩, []⟩⟩,
      ⟨⟨[]⟩⟩⟩ ⟨⟨0, 0, 0⟩, ⟨0, 0, 0⟩, ⟨0, 0, 1⟩, ⟨1, 0, 0⟩, []⟩).1 rfl
  have h3 := (C3_jumper_periodic_jump ⟨1, 0⟩ ⟨1 / 50, ⟨.ident, .plain⟩, ⟨⟨[]⟩⟩⟩
    ⟨⟨0, 0, 0⟩, ⟨0, 0, 0⟩, ⟨0, 0, 1⟩, ⟨1, 0, 0⟩, []⟩).2 rfl
  refine ⟨⟨rfl, by norm_num, ?_⟩, ⟨by norm_num, ?_⟩, ⟨rfl, h3⟩⟩
  · have := h1.1 (by norm_num)
    simpa [Scripting.RigidBodyState.apply_force] using this
  · exact h2.2 (by norm_num)

/-- Claim C9: `Player::on_os_event` preserves `pitch ∈ [-(90°), +90°]` (in
radians): mouse-motion events clamp the updated pitch into that interval and
every other event leaves pitch unchanged. -/
theorem C9_on_os_event_preserves_pitch_interval (p : Scripting.Player)
    (event : Scripting.Event)
    (h1 : -(Scripting.toRadians 90) ≤ p.pitch)
    (h2 : p.pitch ≤ Scripting.toRadians 90) :
    -(Scripting.toRadians 90) ≤ (p.on_os_event event).pitch ∧
      (p.on_os_event event).pitch ≤ Scripting.toRadians 90 ∧
      (∀ dx dy, event = .Device (.MouseMotion dx dy) →
        (p.on_os_event event).pitch =
          min (max (p.pitch + dy * 0.025) (-(Scripting.toRadians 90)))
            (Scripting.toRadians 90)) ∧
      ((∀ dx dy, event ≠ .Device (.MouseMotion dx dy)) →
        (p.on_os_event event).pitch = p.pitch) := by
  have hb : (0 : ℚ) ≤ Scripting.toRadians 90 := by
    norm_num [Scripting.toRadians, Scripting.f32Pi]
  match event with
  | .Device (.MouseMotion dx dy) =>
    refine ⟨?_, ?_, ?_, ?_⟩
    · exact le_min (le_max_right _ _) (by linarith)
    · exact min_le_right _ _
    · intro dx' dy' heq
      cases heq
      rfl
    · intro hne
      exact absurd rfl (hne dx dy)
  | .Device .OtherDevice => exact ⟨h1, h2, (by intro dx dy h; cases h), fun _ => rfl⟩
  | .OtherEvent => exact ⟨h1, h2, (by intro dx dy h; cases h), fun _ => rfl⟩
  | .Window (.Keyboard input) =>
    have hpitch : (p.on_os_event (.Window (.Keyboard input))).pitch = p.pitch := by
      unfold Scripting.Player.on_os_event
      match input with
      | ⟨st, none⟩ => rfl
      | ⟨st, some key⟩ => cases key <;> rfl
    refine ⟨?_, ?_, (by intro dx dy h; cases h), fun _ => hpitch⟩
    · rw [hpitch]; exact h1
    · rw [hpitch]; exact h2
  | .Window .OtherWindow => exact ⟨h1, h2, (by intro dx dy h; cases h), fun _ => rfl⟩

/-- Witness for C9 at pitch 0 with a mouse-motion event of large positive dy
and at a keyboard event. -/
theorem C9_on_os_event_preserves_pitch_interval_witness :
    (-(Scripting.toRadians 90) ≤
        (⟨0.1, 0, 0, 0, Scripting.InputController.default⟩ : Scripting.Player).pitch ∧
      (⟨0.1, 0, 0, 0, Scripting.InputController.default⟩ : Scripting.Player).pitch ≤
        Scripting.toRadians 90) ∧
    (-(Scripting.toRadians 90) ≤
        (Scripting.Player.on_os_event ⟨0.1, 0, 0, 0, Scripting.InputController.default⟩
          (.Device (.MouseMotion 3 1000))).pitch ∧
      (Scripting.Player.on_os_event ⟨0.1, 0, 0, 0, Scripting.InputController.default⟩
          (.Device (.MouseMotion 3 1000))).pitch ≤ Scripting.toRadians 90) ∧
    (Scripting.Player.on_os_event ⟨0.1, 0, 0, 0, Scripting.InputController.default⟩
        (.Window (.Keyboard ⟨.Pressed, some .W⟩))).pitch =
      (⟨0.1, 0, 0, 0, Scripting.InputController.default⟩ : Scripting.Player).pitch := by
  have hlo : -(Scripting.toRadians 90) ≤
      (⟨0.1, 0, 0, 0, Scripting.InputController.default⟩ : Scripting.Player).pitch := by
    norm_num [Scripting.toRadians, Scripting.f32Pi]
  have hhi : (⟨0.1, 0, 0, 0, Scripting.InputController.default⟩ : Scripting.Player).pitch ≤
      Scripting.toRadians 90 := by
    norm_num [Scripting.toRadians, Scripting.f32Pi]
  have h1 := C9_on_os_event_preserves_pitch_interval
    ⟨0.1, 0, 0, 0, Scripting.InputController.default⟩
    (.Device (.MouseMotion 3 1000)) hlo hhi
  have h2 := C9_on_os_event_preserves_pitch_interval
    ⟨0.1, 0, 0, 0, Scripting.InputController.default⟩
    (.Window (.Keyboard ⟨.Pressed, some .W⟩)) hlo hhi
  exact ⟨⟨hlo, hhi⟩, ⟨h1.1, h1.2.1⟩, h2.2.2.2 (by intro dx dy h; cases h)⟩

/-- Claim C6: neither `Player::on_update` nor `Player::on_os_event` depends on
the `speed` field: on states differing only in `speed` they produce the same
node and scene, and result states that again differ only in `speed`, each run
leaving its own `speed` unchanged (`on_os_event` touches no node or scene at
all, as reflected by its type). -/
theorem C6_player_speed_has_no_effect (sqrt : ℚ → ℚ)
    (context : Scripting.ScriptContext) (event : Scripting.Event)
    (p1 p2 : Scripting.Player) (h : Scripting.differOnlyInSpeed p1 p2) :
    ((Scripting.Player.on_update sqrt p1 context).node =
        (Scripting.Player.on_update sqrt p2 context).node ∧
      (Scripting.Player.on_update sqrt p1 context).scene =
        (Scripting.Player.on_update sqrt p2 context).scene ∧
      (Scripting.Player.on_update sqrt p1 context).player.speed = p1.speed ∧
      (Scripting.Player.on_update sqrt p2 context).player.speed = p2.speed ∧
      Scripting.differOnlyInSpeed (Scripting.Player.on_update sqrt p1 context).player
        (Scripting.Player.on_update sqrt p2 context).player) ∧
    ((p1.on_os_event event).speed = p1.speed ∧
      (p2.on_os_event event).speed = p2.speed ∧
      Scripting.differOnlyInSpeed (p1.on_os_event event) (p2.on_os_event event)) := by
  obtain ⟨s1, yaw1, pitch1, cam1, ctl1⟩ := p1
  obtain ⟨s2, yaw2, pitch2, cam2, ctl2⟩ := p2
  obtain ⟨hy, hp, hc, hk⟩ := h
  simp only at hy hp hc hk
  subst hy hp hc hk
  have hspeed1 : ∀ s e, (Scripting.Player.on_os_event ⟨s, yaw1, pitch1, cam1, ctl1⟩ e).speed = s := by
    intro s e
    unfold Scripting.Player.on_os_event
    match e with
    | .Device (.MouseMotion dx dy) => rfl
    | .Device .OtherDevice => rfl
    | .OtherEvent => rfl
    | .Window .OtherWindow => rfl
    | .Window (.Keyboard ⟨st, none⟩) => rfl
    | .Window (.Keyboard ⟨st, some key⟩) => cases key <;> rfl
  refine ⟨⟨rfl, rfl, rfl, rfl, rfl, rfl, rfl, rfl⟩, hspeed1 s1 event, hspeed1 s2 event, ?_⟩
  unfold Scripting.Player.on_os_event
  match event with
  | .Device (.MouseMotion dx dy) => exact ⟨rfl, rfl, rfl, rfl⟩
  | .Device .OtherDevice => exact ⟨rfl, rfl, rfl, rfl⟩
  | .OtherEvent => exact ⟨rfl, rfl, rfl, rfl⟩
  | .Window .OtherWindow => exact ⟨rfl, rfl, rfl, rfl⟩
  | .Window (.Keyboard ⟨st, none⟩) => exact ⟨rfl, rfl, rfl, rfl⟩
  | .Window (.Keyboard ⟨st, some key⟩) => cases key <;> exact ⟨rfl, rfl, rfl, rfl⟩

/-- Claim C1: on a `FileSelectorMessage::Commit(path)` message,
`FileMenu::handle_ui_message` sends exactly `Message::SaveScene(path)` when the
destination is the save file selector, exactly `Message::LoadScene(path)` when
it is the load file selector, and no scene message for any other destination
(the two selector handles are distinct widgets, here a hypothesis). -/
theorem C1_file_selector_commit_dispatch (fm : Editor.FileMenu)
    (message : Editor.UiMessage) (path : String)
    (editor_scene : Option Editor.EditorScene) (settings : Editor.Settings)
    (panels : Editor.Panels) (needs_save : Option Editor.EditorScene → Bool)
    (current_dir : String)
    (hdata : message.data = .fsCommit path)
    (hsel : fm.save_file_selector ≠ fm.load_file_selector) :
    (message.destination = fm.save_file_selector →
      Editor.sentMessages (fm.handle_ui_message message editor_scene settings
        panels needs_save current_dir) = [.SaveScene path]) ∧
    (message.destination = fm.load_file_selector →
      Editor.sentMessages (fm.handle_ui_message message editor_scene settings
        panels needs_save current_dir) = [.LoadScene path]) ∧
    (message.destination ≠ fm.save_file_selector →
      message.destination ≠ fm.load_file_selector →
      Editor.sentMessages (fm.handle_ui_message message editor_scene settings
        panels needs_save current_dir) = []) := by
  refine ⟨fun h => ?_, fun h => ?_, fun h1 h2 => ?_⟩
  · simp [Editor.FileMenu.handle_ui_message, hdata, h, Editor.sentMessages]
  · have hne : message.destination ≠ fm.save_file_selector := by
      rw [h]; exact fun e => hsel e.symm
    simp [Editor.FileMenu.handle_ui_message, hdata, h, hne, Ne.symm hsel,
      Editor.sentMessages]
  · simp [Editor.FileMenu.handle_ui_message, hdata, h1, h2, Editor.sentMessages]

/-- Witness for C1 with a concrete file menu whose handles are distinct. -/
theorem C1_file_selector_commit_dispatch_witness :
    ((⟨0, 1, 2, 3, 4, 5, 6, 7, 8, 9, 10, 11, 12, 13, [], 15⟩ :
          Editor.FileMenu).save_file_selector ≠
        (⟨0, 1, 2, 3, 4, 5, 6, 7, 8, 9, 10, 11, 12, 13, [], 15⟩ :
          Editor.FileMenu).load_file_selector) ∧
    Editor.sentMessages
        (Editor.FileMenu.handle_ui_message
          ⟨0, 1, 2, 3, 4, 5, 6, 7, 8, 9, 10, 11, 12, 13, [], 15⟩
          ⟨9, .fsCommit "scene.rgs"⟩ none ⟨⟨[]⟩⟩ ⟨20⟩ (fun _ => false) "/cwd") =
      [.SaveScene "scene.rgs"] := by
  have h := C1_file_selector_commit_dispatch
    ⟨0, 1, 2, 3, 4, 5, 6, 7, 8, 9, 10, 11, 12, 13, [], 15⟩
    ⟨9, .fsCommit "scene.rgs"⟩ "scene.rgs" none ⟨⟨[]⟩⟩ ⟨20⟩ (fun _ => false)
    "/cwd" rfl (by decide)
  exact ⟨by decide, h.1 rfl⟩

/-- Claim C2: on a `MenuItemMessage::Click` whose destination is the Save menu
item, the handler sends `Message::SaveScene` with the scene's existing path if
an editor scene with a path is present; otherwise it sends no sender message
at all and instead opens the save file selector window as a modal (and points
it at the current directory). -/
theorem C2_save_click_dispatch (fm : Editor.FileMenu)
    (message : Editor.UiMessage) (editor_scene : Option Editor.EditorScene)
    (settings : Editor.Settings) (panels : Editor.Panels)
    (needs_save : Option Editor.EditorScene → Bool) (current_dir : String)
    (hdata : message.data = .miClick)
    (hdest : message.destination = fm.save) :
    (∀ s p, editor_scene = some s → s.path = some p →
      fm.handle_ui_message message editor_scene settings panels needs_save
          current_dir =
        [.callSettingsHandleMessage, .send (.SaveScene p)]) ∧
    (editor_scene.bind Editor.EditorScene.path = none →
      Editor.sentMessages (fm.handle_ui_message message editor_scene settings
        panels needs_save current_dir) = [] ∧
      fm.handle_ui_message message editor_scene settings panels needs_save
          current_dir =
        [.callSettingsHandleMessage,
         .uiSend (.windowOpenModal fm.save_file_selector true),
         .uiSend (.fileSelectorPath fm.save_file_selector current_dir)]) := by
  constructor
  · intro s p hes hp
    subst hes
    simp [Editor.FileMenu.handle_ui_message, hdata, hdest, Option.bind, hp]
  · intro hnone
    constructor
    · simp [Editor.FileMenu.handle_ui_message, hdata, hdest, hnone,
        Editor.sentMessages]
    · simp [Editor.FileMenu.handle_ui_message, hdata, hdest, hnone]

/-- Witness for C2: Save click with a path-carrying scene sends `SaveScene`,
and with no scene opens the save selector. -/
theorem C2_save_click_dispatch_witness :
    ((⟨0, 1, 2, 3, 4, 5, 6, 7, 8, 9, 10, 11, 12, 13, [], 15⟩ :
        Editor.FileMenu).save = 2) ∧
    Editor.FileMenu.handle_ui_message
        ⟨0, 1, 2, 3, 4, 5, 6, 7, 8, 9, 10, 11, 12, 13, [], 15⟩
        ⟨2, .miClick⟩ (some ⟨some "a.rgs"⟩) ⟨⟨[]⟩⟩ ⟨20⟩ (fun _ => false) "/cwd" =
      [.callSettingsHandleMessage, .send (.SaveScene "a.rgs")] ∧
    Editor.FileMenu.handle_ui_message
        ⟨0, 1, 2, 3, 4, 5, 6, 7, 8, 9, 10, 11, 12, 13, [], 15⟩
        ⟨2, .miClick⟩ none ⟨⟨[]⟩⟩ ⟨20⟩ (fun _ => false) "/cwd" =
      [.callSettingsHandleMessage, .uiSend (.windowOpenModal 9 true),
       .uiSend (.fileSelectorPath 9 "/cwd")] := by
  have h1 := C2_save_click_dispatch
    ⟨0, 1, 2, 3, 4, 5, 6, 7, 8, 9, 10, 11, 12, 13, [], 15⟩
    ⟨2, .miClick⟩ (some ⟨some "a.rgs"⟩) ⟨⟨[]⟩⟩ ⟨20⟩ (fun _ => false) "/cwd"
    rfl rfl
  have h2 := C2_save_click_dispatch
    ⟨0, 1, 2, 3, 4, 5, 6, 7, 8, 9, 10, 11, 12, 13, [], 15⟩
    ⟨2, .miClick⟩ none ⟨⟨[]⟩⟩ ⟨20⟩ (fun _ => false) "/cwd" rfl rfl
  exact ⟨rfl, h1.1 ⟨some "a.rgs"⟩ "a.rgs" rfl rfl, (h2.2 rfl).2⟩

/-- Claim C4: `Player::on_update` on a rigid-body node keeps the vertical
linear-velocity component unchanged and sets the x/z components from the
normalized flag-selected combination of the normalized look/side vectors,
scaled by `2 * dt` and divided by `dt`; with no movement flag set the
horizontal velocity is the zero vector. -/
theorem C4_player_on_update_velocity (sqrt : ℚ → ℚ) (p : Scripting.Player)
    (context : Scripting.ScriptContext) (body : Scripting.RigidBodyState)
    (h : context.node.kind = .rigidBody body) :
    ∃ body', (Scripting.Player.on_update sqrt p context).node.kind =
        .rigidBody body' ∧
      body'.lin_vel.y = body.lin_vel.y ∧
      (let look_vector := (Scripting.tryNormalize sqrt Scripting.EPSILON
        body.look_vector).getD Scripting.Vector3.zAxis
       let side_vector := (Scripting.tryNormalize sqrt Scripting.EPSILON
        body.side_vector).getD Scripting.Vector3.xAxis
       let velocity := Scripting.Vector3.zero
       let velocity := if p.controller.walk_right then velocity.sub side_vector
        else velocity
       let velocity := if p.controller.walk_left then velocity.add side_vector
        else velocity
       let velocity := if p.controller.walk_forward then velocity.add look_vector
        else velocity
       let velocity := if p.controller.walk_backward then velocity.sub look_vector
        else velocity
       let w := ((Scripting.tryNormalize sqrt Scripting.EPSILON velocity).map
        (·.scale (2 * context.dt))).getD Scripting.Vector3.zero
       body'.lin_vel.x = w.x / context.dt ∧ body'.lin_vel.z = w.z / context.dt) ∧
      (p.controller.walk_right = false → p.controller.walk_left = false →
        p.controller.walk_forward = false → p.controller.walk_backward = false →
        body'.lin_vel.x = 0 ∧ body'.lin_vel.z = 0) := by
  obtain ⟨dt, ⟨rot, k⟩, scene⟩ := context
  simp only at h
  subst h
  refine ⟨_, rfl, rfl, ⟨rfl, rfl⟩, fun h1 h2 h3 h4 => ?_⟩
  have hzero : Scripting.tryNormalize sqrt Scripting.EPSILON
      (⟨0, 0, 0⟩ : Scripting.Vector3) = none := by
    norm_num [Scripting.tryNormalize, Scripting.Vector3.normSq,
      Scripting.EPSILON]
  constructor <;>
    simp [Scripting.Player.on_update, h1, h2, h3, h4, hzero,
      Scripting.Vector3.zero, Scripting.RigidBodyState.set_lin_vel,
      Scripting.RigidBodyState.set_ang_vel]

/-- Witness for C4: a concrete rigid body with `lin_vel = (3, 7, 2)` and no
movement flags; the vertical component 7 is kept and the horizontal ones are
zeroed. -/
theorem C4_player_on_update_velocity_witness :
    ((⟨1 / 50, ⟨.ident, .rigidBody ⟨⟨3, 7, 2⟩, ⟨0, 0, 0⟩, ⟨0, 0, 1⟩, ⟨1, 0, 0⟩, []⟩⟩,
        ⟨⟨[]⟩⟩⟩ : Scripting.ScriptContext).node.kind =
      .rigidBody ⟨⟨3, 7, 2⟩, ⟨0, 0, 0⟩, ⟨0, 0, 1⟩, ⟨1, 0, 0⟩, []⟩) ∧
    ∃ body', (Scripting.Player.on_update (fun q => q)
        ⟨0.1, 0, 0, 0, ⟨false, false, false, false, false⟩⟩
        ⟨1 / 50, ⟨.ident, .rigidBody ⟨⟨3, 7, 2⟩, ⟨0, 0, 0⟩, ⟨0, 0, 1⟩, ⟨1, 0, 0⟩, []⟩⟩,
          ⟨⟨[]⟩⟩⟩).node.kind = .rigidBody body' ∧
      body'.lin_vel.y = 7 ∧ body'.lin_vel.x = 0 ∧ body'.lin_vel.z = 0 := by
  obtain ⟨b, hk, hy, hform, hzero⟩ := C4_player_on_update_velocity (fun q => q)
    ⟨0.1, 0, 0, 0, ⟨false, false, false, false, false⟩⟩
    ⟨1 / 50, ⟨.ident, .rigidBody ⟨⟨3, 7, 2⟩, ⟨0, 0, 0⟩, ⟨0, 0, 1⟩, ⟨1, 0, 0⟩, []⟩⟩,
      ⟨⟨[]⟩⟩⟩ ⟨⟨3, 7, 2⟩, ⟨0, 0, 0⟩, ⟨0, 0, 1⟩, ⟨1, 0, 0⟩, []⟩ rfl
  exact ⟨rfl, b, hk, hy, (hzero rfl rfl rfl rfl).1, (hzero rfl rfl rfl rfl).2⟩

/-- Witness for C6: two players with speeds 5 and 7 otherwise identical, on a
plain node and a keyboard event. -/
theorem C6_player_speed_has_no_effect_witness :
    Scripting.differOnlyInSpeed ⟨5, 1, 2, 3, ⟨true, false, false, false, false⟩⟩
        ⟨7, 1, 2, 3, ⟨true, false, false, false, false⟩⟩ ∧
    (((Scripting.Player.on_update (fun q => q)
          ⟨5, 1, 2, 3, ⟨true, false, false, false, false⟩⟩
          ⟨1 / 50, ⟨.ident, .plain⟩, ⟨⟨[]⟩⟩⟩).node =
        (Scripting.Player.on_update (fun q => q)
          ⟨7, 1, 2, 3, ⟨true, false, false, false, false⟩⟩
          ⟨1 / 50, ⟨.ident, .plain⟩, ⟨⟨[]⟩⟩⟩).node ∧
      (Scripting.Player.on_update (fun q => q)
          ⟨5, 1, 2, 3, ⟨true, false, false, false, false⟩⟩
          ⟨1 / 50, ⟨.ident, .plain⟩, ⟨⟨[]⟩⟩⟩).scene =
        (Scripting.Player.on_update (fun q => q)
          ⟨7, 1, 2, 3, ⟨true, false, false, false, false⟩⟩
          ⟨1 / 50, ⟨.ident, .plain⟩, ⟨⟨[]⟩⟩⟩).scene ∧
      (Scripting.Player.on_update (fun q => q)
          ⟨5, 1, 2, 3, ⟨true, false, false, false, false⟩⟩
          ⟨1 / 50, ⟨.ident, .plain⟩, ⟨⟨[]⟩⟩⟩).player.speed =
        (⟨5, 1, 2, 3, ⟨true, false, false, false, false⟩⟩ : Scripting.Player).speed ∧
      (Scripting.Player.on_update (fun q => q)
          ⟨7, 1, 2, 3, ⟨true, false, false, false, false⟩⟩
          ⟨1 / 50, ⟨.ident, .plain⟩, ⟨⟨[]⟩⟩⟩).player.speed =
        (⟨7, 1, 2, 3, ⟨true, false, false, false, false⟩⟩ : Scripting.Player).speed ∧
      Scripting.differOnlyInSpeed
        (Scripting.Player.on_update (fun q => q)
          ⟨5, 1, 2, 3, ⟨true, false, false, false, false⟩⟩
          ⟨1 / 50, ⟨.ident, .plain⟩, ⟨⟨[]⟩⟩⟩).player
        (Scripting.Player.on_update (fun q => q)
          ⟨7, 1, 2, 3, ⟨true, false, false, false, false⟩⟩
          ⟨1 / 50, ⟨.ident, .plain⟩, ⟨⟨[]⟩⟩⟩).player) ∧
    ((Scripting.Player.on_os_event ⟨5, 1, 2, 3, ⟨true, false, false, false, false⟩⟩
          (.Window (.Keyboard ⟨.Pressed, some .S⟩))).speed =
        (⟨5, 1, 2, 3, ⟨true, false, false, false, false⟩⟩ : Scripting.Player).speed ∧
      (Scripting.Player.on_os_event ⟨7, 1, 2, 3, ⟨true, false, false, false, false⟩⟩
          (.Window (.Keyboard ⟨.Pressed, some .S⟩))).speed =
        (⟨7, 1, 2, 3, ⟨true, false, false, false, false⟩⟩ : Scripting.Player).speed ∧
      Scripting.differOnlyInSpeed
        (Scripting.Player.on_os_event ⟨5, 1, 2, 3, ⟨true, false, false, false, false⟩⟩
          (.Window (.Keyboard ⟨.Pressed, some .S⟩)))
        (Scripting.Player.on_os_event ⟨7, 1, 2, 3, ⟨true, false, false, false, false⟩⟩
          (.Window (.Keyboard ⟨.Pressed, some .S⟩))))) :=
  ⟨⟨rfl, rfl, rfl, rfl⟩,
    C6_player_speed_has_no_effect (fun q => q) ⟨1 / 50, ⟨.ident, .plain⟩, ⟨⟨[]⟩⟩⟩
      (.Window (.Keyboard ⟨.Pressed, some .S⟩))
      ⟨5, 1, 2, 3, ⟨true, false, false, false, false⟩⟩
      ⟨7, 1, 2, 3, ⟨true, false, false, false, false⟩⟩ ⟨rfl, rfl, rfl, rfl⟩⟩

/-! Helper lemmas about the widget build context. -/

theorem Editor.builtAt_alloc_pres (ctx : Editor.BuildContext)
    (d : Editor.WidgetDesc) (h : Nat) (w : Editor.WidgetDesc)
    (hb : ctx.builtAt h = some w) :
    ((ctx.alloc d).2).builtAt h = some w := by
  unfold Editor.BuildContext.builtAt Editor.BuildContext.alloc at *
  rcases hf : ctx.widgets.find? (fun p => p.1 = h) with _ | p
  · rw [hf] at hb; simp at hb
  · rw [List.find?_append, hf]
    rw [hf] at hb
    simpa using hb

theorem Editor.builtAt_alloc_self (ctx : Editor.BuildContext)
    (d : Editor.WidgetDesc) (hwf : ctx.wf) :
    ((ctx.alloc d).2).builtAt ctx.next = some d := by
  unfold Editor.BuildContext.builtAt Editor.BuildContext.alloc
  rw [List.find?_append]
  have hnone : ctx.widgets.find? (fun p => p.1 = ctx.next) = none :=
    List.find?_eq_none.mpr (fun x hx => by simpa using Nat.ne_of_lt (hwf x hx))
  rw [hnone]
  simp

theorem Editor.allocRecentItems_builtAt_pres (l : List String)
    (ctx : Editor.BuildContext) (h : Nat) (w : Editor.WidgetDesc)
    (hb : ctx.builtAt h = some w) :
    ((Editor.allocRecentItems l ctx).2).builtAt h = some w := by
  induction l generalizing ctx with
  | nil => exact hb
  | cons f rest ih =>
    have step := Editor.builtAt_alloc_pres ctx (.menuItem f none []) h w hb
    simpa [Editor.allocRecentItems, Editor.create_menu_item] using
      ih ((ctx.alloc (.menuItem f none [])).2) step

theorem Editor.allocRecentItems_next (l : List String)
    (ctx : Editor.BuildContext) :
    (Editor.allocRecentItems l ctx).2.next = ctx.next + l.length := by
  induction l generalizing ctx with
  | nil => rfl
  | cons f rest ih =>
    have := ih ((ctx.alloc (.menuItem f none [])).2)
    simp [Editor.allocRecentItems, Editor.create_menu_item,
      Editor.BuildContext.alloc] at this ⊢
    omega

theorem Editor.allocRecentItems_wf (l : List String)
    (ctx : Editor.BuildContext) (hwf : ctx.wf) :
    ((Editor.allocRecentItems l ctx).2).wf := by
  induction l generalizing ctx with
  | nil => exact hwf
  | cons f rest ih =>
    have hwf' : ((ctx.alloc (.menuItem f none [])).2).wf := by
      intro p hp
      simp [Editor.BuildContext.alloc] at hp
      rcases hp with hp | hp
      · have := hwf p hp
        simp [Editor.BuildContext.alloc]
        omega
      · simp [Editor.BuildContext.alloc, hp]
    simpa [Editor.allocRecentItems, Editor.create_menu_item] using
      ih ((ctx.alloc (.menuItem f none [])).2) hwf'

theorem Editor.builtAt_snoc (next next' : Nat)
    (l : List (Nat × Editor.WidgetDesc)) (e : Nat × Editor.WidgetDesc)
    (h : Nat) (w : Editor.WidgetDesc)
    (hb : (Editor.BuildContext.mk next l).builtAt h = some w) :
    (Editor.BuildContext.mk next' (l ++ [e])).builtAt h = some w := by
  unfold Editor.BuildContext.builtAt at *
  rcases hf : l.find? (fun p => p.1 = h) with _ | p
  · rw [hf] at hb; simp at hb
  · rw [List.find?_append, hf]
    rw [hf] at hb
    simpa using hb

/-- Handle layout of `FileMenu::new`: every menu-item handle in terms of the
initial counter and the number of recent files, and the configure warning
message box recorded at `configure_message`. -/
theorem Editor.FileMenu.new_spec (settings : Editor.Settings)
    (ctx0 : Editor.BuildContext) :
    ((Editor.FileMenu.new settings ctx0).1.configure_message = ctx0.next) ∧
    ((Editor.FileMenu.new settings ctx0).1.new_scene =
      ctx0.next + settings.recent.scenes.length + 1) ∧
    ((Editor.FileMenu.new settings ctx0).1.save =
      ctx0.next + settings.recent.scenes.length + 2) ∧
    ((Editor.FileMenu.new settings ctx0).1.save_as =
      ctx0.next + settings.recent.scenes.length + 3) ∧
    ((Editor.FileMenu.new settings ctx0).1.load =
      ctx0.next + settings.recent.scenes.length + 4) ∧
    ((Editor.FileMenu.new settings ctx0).1.close_scene =
      ctx0.next + settings.recent.scenes.length + 5) ∧
    ((Editor.FileMenu.new settings ctx0).1.open_settings =
      ctx0.next + settings.recent.scenes.length + 6) ∧
    ((Editor.FileMenu.new settings ctx0).1.open_scene_settings =
      ctx0.next + settings.recent.scenes.length + 7) ∧
    ((Editor.FileMenu.new settings ctx0).1.configure =
      ctx0.next + settings.recent.scenes.length + 8) ∧
    ((Editor.FileMenu.new settings ctx0).1.exit =
      ctx0.next + settings.recent.scenes.length + 10) ∧
    ((Editor.FileMenu.new settings ctx0).1.save_file_selector =
      ctx0.next + settings.recent.scenes.length + 12) ∧
    ((Editor.FileMenu.new settings ctx0).1.load_file_selector =
      ctx0.next + settings.recent.scenes.length + 13) ∧
    (ctx0.wf →
      (Editor.FileMenu.new settings ctx0).2.builtAt
          ((Editor.FileMenu.new settings ctx0).1.configure_message) =
        some (.messageBox "Warning"
          "Cannot reconfigure editor while scene is open! Close scene first and retry.")) := by
  rcases hmk : Editor.allocRecentItems settings.recent.scenes
      ((ctx0.alloc (.messageBox "Warning"
        "Cannot reconfigure editor while scene is open! Close scene first and retry.")).2)
    with ⟨rf, ctxB⟩
  have hnext := Editor.allocRecentItems_next settings.recent.scenes
    ((ctx0.alloc (.messageBox "Warning"
      "Cannot reconfigure editor while scene is open! Close scene first and retry.")).2)
  simp only [Editor.BuildContext.alloc] at hmk
  have hnext := Editor.allocRecentItems_next settings.recent.scenes
    (Editor.BuildContext.mk (ctx0.next + 1) (ctx0.widgets ++
      [(ctx0.next, Editor.WidgetDesc.messageBox "Warning"
        "Cannot reconfigure editor while scene is open! Close scene first and retry.")]))
  rw [hmk] at hnext
  obtain ⟨bnext, bwidgets⟩ := ctxB
  simp only at hnext
  refine ⟨?_, ?_, ?_, ?_, ?_, ?_, ?_, ?_, ?_, ?_, ?_, ?_, fun hwf => ?_⟩
  all_goals simp only [Editor.FileMenu.new, Editor.make_recent_files_items,
    Editor.create_menu_item, Editor.create_menu_item_shortcut,
    Editor.create_root_menu_item, Editor.make_save_file_selector,
    Editor.BuildContext.alloc, hmk]
  all_goals try omega
  have h0 := Editor.builtAt_alloc_self ctx0 (.messageBox "Warning"
    "Cannot reconfigure editor while scene is open! Close scene first and retry.") hwf
  have h1 := Editor.allocRecentItems_builtAt_pres settings.recent.scenes
    ((ctx0.alloc (.messageBox "Warning"
      "Cannot reconfigure editor while scene is open! Close scene first and retry.")).2)
    ctx0.next _ h0
  simp only [Editor.BuildContext.alloc] at h1
  rw [hmk] at h1
  iterate 14 apply Editor.builtAt_snoc 0
  exact h1

/-- Claim C7: on a `MenuItemMessage::Click` on the Configure item of a menu
built by `FileMenu::new`, the handler opens the configurator window as a modal
iff no editor scene is open; with a scene open it instead opens the pre-built
"Warning" message box ("Cannot reconfigure editor while scene is open! Close
scene first and retry.") and opens no window at all. -/
theorem C7_configure_click_dispatch (settings : Editor.Settings)
    (ctx0 : Editor.BuildContext) (message : Editor.UiMessage)
    (editor_scene : Option Editor.EditorScene) (panels : Editor.Panels)
    (needs_save : Option Editor.EditorScene → Bool) (current_dir : String)
    (hwf : ctx0.wf) (hdata : message.data = .miClick)
    (hdest : message.destination = (Editor.FileMenu.new settings ctx0).1.configure) :
    (editor_scene = none →
      (Editor.FileMenu.new settings ctx0).1.handle_ui_message message editor_scene
          settings panels needs_save current_dir =
        [.callSettingsHandleMessage,
         .uiSend (.windowOpenModal panels.configurator_window true)]) ∧
    (∀ s, editor_scene = some s →
      (Editor.FileMenu.new settings ctx0).1.handle_ui_message message editor_scene
          settings panels needs_save current_dir =
        [.callSettingsHandleMessage,
         .uiSend (.messageBoxOpen
            (Editor.FileMenu.new settings ctx0).1.configure_message)] ∧
      (Editor.FileMenu.new settings ctx0).2.builtAt
          ((Editor.FileMenu.new settings ctx0).1.configure_message) =
        some (.messageBox "Warning"
          "Cannot reconfigure editor while scene is open! Close scene first and retry.") ∧
      ∀ h b, Editor.Effect.uiSend (.windowOpenModal h b) ∉
        (Editor.FileMenu.new settings ctx0).1.handle_ui_message message editor_scene
          settings panels needs_save current_dir) ∧
    ((Editor.Effect.uiSend (.windowOpenModal panels.configurator_window true) ∈
        (Editor.FileMenu.new settings ctx0).1.handle_ui_message message editor_scene
          settings panels needs_save current_dir) ↔ editor_scene = none) := by
  obtain ⟨hmsg, hnew, hsave, hsaveas, hload, hclose, hopen, hopenscene, hconf,
    hexit, hsavesel, hloadsel, hbuilt⟩ := Editor.FileMenu.new_spec settings ctx0
  have d1 : (Editor.FileMenu.new settings ctx0).1.configure ≠
      (Editor.FileMenu.new settings ctx0).1.save := by rw [hconf, hsave]; omega
  have d2 : (Editor.FileMenu.new settings ctx0).1.configure ≠
      (Editor.FileMenu.new settings ctx0).1.save_as := by rw [hconf, hsaveas]; omega
  have d3 : (Editor.FileMenu.new settings ctx0).1.configure ≠
      (Editor.FileMenu.new settings ctx0).1.load := by rw [hconf, hload]; omega
  have d4 : (Editor.FileMenu.new settings ctx0).1.configure ≠
      (Editor.FileMenu.new settings ctx0).1.close_scene := by rw [hconf, hclose]; omega
  have d5 : (Editor.FileMenu.new settings ctx0).1.configure ≠
      (Editor.FileMenu.new settings ctx0).1.exit := by rw [hconf, hexit]; omega
  have d6 : (Editor.FileMenu.new settings ctx0).1.configure ≠
      (Editor.FileMenu.new settings ctx0).1.new_scene := by rw [hconf, hnew]; omega
  have key : (Editor.FileMenu.new settings ctx0).1.handle_ui_message message
      editor_scene settings panels needs_save current_dir =
      Editor.Effect.callSettingsHandleMessage ::
        (if editor_scene.isNone then
          [.uiSend (.windowOpenModal panels.configurator_window true)]
         else
          [.uiSend (.messageBoxOpen
            (Editor.FileMenu.new settings ctx0).1.configure_message)]) := by
    simp [Editor.FileMenu.handle_ui_message, hdata, hdest, d1, d2, d3, d4, d5, d6]
  refine ⟨fun hnone => ?_, fun s hsome => ?_, ?_⟩
  · subst hnone
    simpa using key
  · subst hsome
    refine ⟨by simpa using key, hbuilt hwf, fun h b hmem => ?_⟩
    rw [key] at hmem
    simp at hmem
  · constructor
    · intro hmem
      cases editor_scene with
      | none => rfl
      | some s =>
        rw [key] at hmem
        simp at hmem
    · intro hnone
      subst hnone
      rw [key]
      simp

/-- Witness for C7: the menu built from a fresh build context with no recent
files; Configure gets handle 8, the configurator panel handle 100. -/
theorem C7_configure_click_dispatch_witness :
    (Editor.BuildContext.mk 0 []).wf ∧
    Editor.FileMenu.handle_ui_message (Editor.FileMenu.new ⟨⟨[]⟩⟩ ⟨0, []⟩).1
        ⟨8, .miClick⟩ none ⟨⟨[]⟩⟩ ⟨100⟩ (fun _ => false) "/cwd" =
      [.callSettingsHandleMessage, .uiSend (.windowOpenModal 100 true)] ∧
    Editor.FileMenu.handle_ui_message (Editor.FileMenu.new ⟨⟨[]⟩⟩ ⟨0, []⟩).1
        ⟨8, .miClick⟩ (some ⟨none⟩) ⟨⟨[]⟩⟩ ⟨100⟩ (fun _ => false) "/cwd" =
      [.callSettingsHandleMessage,
       .uiSend (.messageBoxOpen
          (Editor.FileMenu.new ⟨⟨[]⟩⟩ ⟨0, []⟩).1.configure_message)] ∧
    (Editor.FileMenu.new ⟨⟨[]⟩⟩ ⟨0, []⟩).2.builtAt
        (Editor.FileMenu.new ⟨⟨[]⟩⟩ ⟨0, []⟩).1.configure_message =
      some (.messageBox "Warning"
        "Cannot reconfigure editor while scene is open! Close scene first and retry.") := by
  have hwf : (Editor.BuildContext.mk 0 []).wf := by
    intro p hp
    simp at hp
  have hn := C7_configure_click_dispatch ⟨⟨[]⟩⟩ ⟨0, []⟩ ⟨8, .miClick⟩ none ⟨100⟩
    (fun _ => false) "/cwd" hwf rfl rfl
  have hs := C7_configure_click_dispatch ⟨⟨[]⟩⟩ ⟨0, []⟩ ⟨8, .miClick⟩
    (some ⟨none⟩) ⟨100⟩ (fun _ => false) "/cwd" hwf rfl rfl
  obtain ⟨hb1, hb2, -⟩ := hs.2.1 ⟨none⟩ rfl
  exact ⟨hwf, hn.1 rfl, hb1, hb2⟩
